import Mathlib

/-!
Verification of the parameter-derivation, fallback, probing and pipeline
logic of the video-utils repository (src/predict.py and src/reencoder.py).

The Python code is embedded shallowly:
* pure numeric derivations (`_reencode_for_web` lines 501-542) become pure
  functions over `ℚ`/`ℤ`, with Python `int()` applied to a nonnegative value
  modelled as truncation toward zero (`pyInt`);
* Python string primitives (`strip`, `split`, `float`, `int`) become
  structurally recursive functions on character lists so that concrete
  inputs evaluate inside proofs;
* subprocess invocations of ffmpeg/ffprobe become oracle booleans (success /
  non-zero exit) plus captured stderr strings, and each code path records a
  trace of events (temp-file creation, probe call, engine call);
* Python exceptions become an explicit `PyError` sum; the distinction
  between `subprocess.CalledProcessError` and `RuntimeError` matters because
  the boomerang cleanup handler catches only the former;
* files on disk are tracked as a list of abstract temp-file handles.
-/

namespace VideoUtils

/-- Python `int()` applied to a real value: truncation toward zero. -/
def pyInt (q : ℚ) : ℤ := if 0 ≤ q then ⌊q⌋ else ⌈q⌉

/-- Python `str.strip()` on the underlying character list. -/
def stripChars (cs : List Char) : List Char :=
  ((cs.dropWhile Char.isWhitespace).reverse.dropWhile Char.isWhitespace).reverse

/-- Python `str.strip()`. -/
def pyStrip (s : String) : String := ⟨stripChars s.data⟩

/-- Value of a list of decimal digit characters; `none` if a non-digit
occurs.  An empty list yields `some 0` (callers rule out the empty case). -/
def digitsVal (cs : List Char) : Option ℕ :=
  cs.foldl
    (fun acc c =>
      match acc with
      | none => none
      | some a => if c.isDigit then some (a * 10 + (c.toNat - 48)) else none)
    (some 0)

/-- Python `str.split(sep)` for a one-character separator. -/
def splitOnChar (sep : Char) : List Char → List (List Char)
  | [] => [[]]
  | c :: t =>
    let r := splitOnChar sep t
    if c = sep then [] :: r
    else
      match r with
      | [] => [[c]]
      | h :: t2 => (c :: h) :: t2

/-- Unsigned part of Python `float(s)`: decimal digits with an optional
single decimal point. -/
def parseFloatMag (cs : List Char) : Option ℚ :=
  let ip := cs.takeWhile (fun c => c ≠ '.')
  let rest := cs.dropWhile (fun c => c ≠ '.')
  match rest with
  | [] => if ip.isEmpty then none else (digitsVal ip).map (fun n => (n : ℚ))
  | _ :: frac =>
    if frac.contains '.' then none
    else if ip.isEmpty && frac.isEmpty then none
    else
      match digitsVal ip, digitsVal frac with
      | some a, some b => some ((a : ℚ) + (b : ℚ) / (10 : ℚ) ^ frac.length)
      | _, _ => none

/-- Embedding of Python `float(s)` restricted to the forms the probed
ffprobe fields take: optional sign, digits, optional single decimal point
(exponent/inf/nan forms do not occur in the modelled inputs).  Returns
`none` where Python `float` raises `ValueError`. -/
def parseFloatChars (cs : List Char) : Option ℚ :=
  match stripChars cs with
  | '-' :: t => (parseFloatMag t).map (fun v => -v)
  | '+' :: t => parseFloatMag t
  | t => parseFloatMag t

/-- Embedding of Python `int(s)` on a string: optional sign then decimal
digits only; `none` where Python raises `ValueError`. -/
def parseIntChars (cs : List Char) : Option ℤ :=
  match stripChars cs with
  | '-' :: t =>
    if t.isEmpty || !(t.all Char.isDigit) then none
    else (digitsVal t).map (fun n => -(n : ℤ))
  | '+' :: t =>
    if t.isEmpty || !(t.all Char.isDigit) then none
    else (digitsVal t).map (fun n => (n : ℤ))
  | t =>
    if t.isEmpty || !(t.all Char.isDigit) then none
    else (digitsVal t).map (fun n => (n : ℤ))

/-- The Python exception kinds the embedded code distinguishes.
`attributeError` carries only the interpreter's own message (it arises from
calling a method on `None`), never any captured engine diagnostics. -/
inductive PyError
  | calledProcessError (stderr : String)
  | runtimeError (msg : String)
  | valueError (msg : String)
  | attributeError (msg : String)
deriving DecidableEq

/-- Observable side effects of a task run, in order of occurrence. -/
inductive Event
  | tempFile
  | probe
  | engine
deriving DecidableEq, BEq

/-- A computation result together with its recorded side-effect trace. -/
structure Traced (α : Type) where
  result : Except PyError α
  events : List Event

/-- Number of external-engine (ffmpeg) invocations recorded in a trace. -/
def engineCount {α : Type} (t : Traced α) : ℕ := t.events.count Event.engine

/-! ## MediaProbe (predict.py lines 198-275)

Each of the four getters runs one ffprobe sub-query.  A sub-query outcome is
`none` when the subprocess exits non-zero (`CalledProcessError`), otherwise
`some stdout`.  The resolution query parses JSON; its outcome is pre-parsed
into `ResProbe` at exactly the granularity the source code inspects. -/

/-- `_get_video_codec` (lines 198-212): stripped stdout, or "unknown" on
subprocess failure. -/
def getCodec (out : Option String) : String :=
  match out with
  | none => "unknown"
  | some s => pyStrip s

/-- `_get_video_fps` (lines 214-232): parse `num/den` or a plain decimal;
subprocess failure, parse failure (`ValueError`, including split-unpack
errors) and a zero denominator (`ZeroDivisionError`) all yield 30.0. -/
def getFps (out : Option String) : ℚ :=
  match out with
  | none => 30
  | some raw =>
    let cs := stripChars raw.data
    if cs.contains '/' then
      match splitOnChar '/' cs with
      | [n, d] =>
        match parseFloatChars n, parseFloatChars d with
        | some nv, some dv => if dv = 0 then 30 else nv / dv
        | _, _ => 30
      | _ => 30
    else
      match parseFloatChars cs with
      | some v => v
      | none => 30

/-- Outcome of the resolution sub-query of `_get_video_resolution`
(lines 234-256), pre-parsed to the shape the code inspects: process failure,
JSON decode failure, or a parsed document whose optional "streams" list
holds streams with optional width/height fields. -/
inductive ResProbe
  | procError
  | badJson
  | doc (streams : Option (List (Option ℤ × Option ℤ)))
deriving DecidableEq

/-- `_get_video_resolution` (lines 234-256): first stream's width/height
when both are present and truthy (non-zero), else the (1920, 1080)
default. -/
def getResolution (out : ResProbe) : ℤ × ℤ :=
  match out with
  | ResProbe.procError => (1920, 1080)
  | ResProbe.badJson => (1920, 1080)
  | ResProbe.doc none => (1920, 1080)
  | ResProbe.doc (some []) => (1920, 1080)
  | ResProbe.doc (some (st :: _)) =>
    match st.1, st.2 with
    | some w, some h => if w ≠ 0 ∧ h ≠ 0 then (w, h) else (1920, 1080)
    | _, _ => (1920, 1080)

/-- `_get_video_bitrate` (lines 258-275): parsed integer bps when the
stripped stdout is non-empty and not "N/A"; `none` on subprocess failure,
`ValueError`, empty output or "N/A". -/
def getBitrate (out : Option String) : Option ℤ :=
  match out with
  | none => none
  | some raw =>
    let s := pyStrip raw
    if s ≠ "" ∧ s ≠ "N/A" then parseIntChars s.data else none

/-- Raw outcomes of the four independent ffprobe sub-queries. -/
structure ProbeRaw where
  codecOut : Option String
  fpsOut : Option String
  resOut : ResProbe
  bitrateOut : Option String

/-- Probed properties of the input media asset. -/
structure MediaProperties where
  codec : String
  fps : ℚ
  width : ℤ
  height : ℤ
  bitrate : Option ℤ

/-- The four probe calls issued by `_reencode_for_web` (lines 494-497),
each sub-query independent of the others. -/
def probeAll (r : ProbeRaw) : MediaProperties :=
  { codec := getCodec r.codecOut
    fps := getFps r.fpsOut
    width := (getResolution r.resOut).1
    height := (getResolution r.resOut).2
    bitrate := getBitrate r.bitrateOut }

/-! ## Web-delivery parameter derivation (predict.py lines 501-542) -/

/-- Line 502: `keyframe_interval = int(fps * 2)`. -/
def keyframeInterval (fps : ℚ) : ℤ := pyInt (fps * 2)

/-- Lines 504-517: cap the output height at 1440; when scaling, the new
width is `int(width * (1440 / height))` decremented by one when odd, and a
scale filter string is emitted; otherwise the resolution passes through and
no filter is emitted. -/
def targetResolution (width height : ℤ) : ℤ × ℤ × Option String :=
  if 1440 < height then
    let newWidth0 := pyInt ((width : ℚ) * ((1440 : ℚ) / (height : ℚ)))
    let newWidth := if newWidth0 % 2 = 0 then newWidth0 else newWidth0 - 1
    (newWidth, 1440, some ("scale=" ++ toString newWidth ++ ":1440"))
  else
    (width, height, none)

/-- Lines 519-532: bitrate ladder keyed on the output height, in whole
megabits; the source stores the tokens "8M"/"12M"/... directly, and the
numeric value here is what `float(token.replace('M', ''))` recovers on
line 539. -/
def bitrateLadder (newHeight : ℤ) : ℤ × ℤ :=
  if 1440 ≤ newHeight then (8, 12)
  else if 1080 ≤ newHeight then (5, 8)
  else if 720 ≤ newHeight then (3, 5)
  else (2, 3)

/-- Rendering of a whole-megabit value as the token the source emits. -/
def mbToken (n : ℤ) : String := toString n ++ "M"

/-- Lines 534-542: when the probed bitrate is known (and truthy), compute
`calculated_target = max(2.0, input_mbps * 0.8)`; if it is below the ladder
target, the target token becomes `int(calculated_target)` megabits and the
max token `int(calculated_target * 1.5)` megabits; otherwise the ladder
tokens are kept. -/
def adjustBitrate (ladderTarget ladderMax : ℤ) (inputBitrate : Option ℤ) :
    String × String :=
  match inputBitrate with
  | none => (mbToken ladderTarget, mbToken ladderMax)
  | some b =>
    if b = 0 then (mbToken ladderTarget, mbToken ladderMax)
    else
      let inputMbps : ℚ := (b : ℚ) / 1000000
      let calculatedTarget : ℚ := max 2 (inputMbps * (4 / 5))
      if calculatedTarget < (ladderTarget : ℚ) then
        (toString (pyInt calculatedTarget) ++ "M",
         toString (pyInt (calculatedTarget * (3 / 2))) ++ "M")
      else
        (mbToken ladderTarget, mbToken ladderMax)

/-! ## Encode plan builders (predict.py lines 319-354, reencoder.py 104-128) -/

/-- `_encode_with_software` (predict.py lines 319-354): argument list of
the software encode command — software encoder `libx264`, no hardware
identifiers. -/
def encodeWithSoftwareCmd (inputPath outputPath : String) (startTime endTime : ℚ)
    (preset bitrate : String) : List String :=
  ["ffmpeg", "-y"] ++
  (if startTime ≠ 0 then ["-ss", toString startTime] else []) ++
  (if endTime ≠ -1 then ["-to", toString endTime] else []) ++
  ["-i", inputPath, "-c:v", "libx264", "-preset", preset, "-b:v", bitrate,
   "-c:a", "aac", "-b:a", "128k", outputPath]

/-- First fallback command of `reencoder` (reencoder.py lines 104-128),
built on the path the source comments call software encoding: it still
selects the `h264_nvenc` encoder. -/
def reencoderFallback1Cmd (inputPath outputPath : String) (startTime endTime : ℚ)
    (preset : String) : List String :=
  ["ffmpeg", "-y", "-loglevel", "error"] ++
  (if startTime ≠ 0 then ["-ss", toString startTime] else []) ++
  (if endTime ≠ -1 then ["-to", toString endTime] else []) ++
  ["-i", inputPath, "-c:v", "h264_nvenc", "-preset", preset, "-b:v", "20M",
   "-c:a", "aac", outputPath]

/-! ## EncodeExecutor: preview task (predict.py lines 49-93) -/

/-- Engine oracle for one preview run: success of the hardware attempt, of
the software attempt, and the diagnostic stream captured on failure. -/
structure PreviewOutcomes where
  hwOk : Bool
  swOk : Bool
  stderr : String

/-- `_create_preview_video` (predict.py lines 49-93): one temp file and one
codec probe, then hardware-first encoding (when the GPU is available) with
a single software fallback; a software-path failure surfaces as
`RuntimeError` carrying the captured stderr (raised inside
`_encode_preview_with_software`, lines 463-468).  Each engine event is one
ffmpeg invocation. -/
def createPreviewVideo (gpu : Bool) (o : PreviewOutcomes) : Traced Unit :=
  if gpu then
    if o.hwOk then
      ⟨Except.ok (), [Event.tempFile, Event.probe, Event.engine]⟩
    else if o.swOk then
      ⟨Except.ok (), [Event.tempFile, Event.probe, Event.engine, Event.engine]⟩
    else
      ⟨Except.error (PyError.runtimeError
          ("Software preview encoding failed: " ++ o.stderr)),
        [Event.tempFile, Event.probe, Event.engine, Event.engine]⟩
  else
    if o.swOk then
      ⟨Except.ok (), [Event.tempFile, Event.probe, Event.engine]⟩
    else
      ⟨Except.error (PyError.runtimeError
          ("Software preview encoding failed: " ++ o.stderr)),
        [Event.tempFile, Event.probe, Event.engine]⟩

/-! ## PipelineOrchestrator: boomerang task (predict.py lines 95-196) -/

/-- The temp files a boomerang invocation can create. -/
inductive TmpFile
  | trimmed
  | reversed
  | output
  | concatDesc
deriving DecidableEq, BEq

/-- `os.unlink` guarded by `os.path.exists` on the modelled disk. -/
def unlinkFile (disk : List TmpFile) (f : TmpFile) : List TmpFile :=
  disk.filter (fun g => g != f)

/-- Engine oracle for one boomerang run: success of the hardware trim, the
software trim, the reverse command and the concat command, plus the
captured stderr of whichever command fails. -/
structure BoomOutcomes where
  hwTrim : Bool
  swTrim : Bool
  reverseOk : Bool
  concatOk : Bool
  stderr : String

/-- Result, final disk contents and event trace of one boomerang run. -/
structure BoomerangRun where
  result : Except PyError TmpFile
  disk : List TmpFile
  events : List Event

/-- The `except subprocess.CalledProcessError` cleanup loop of
`_create_boomerang` (lines 190-193): unlink trimmed, reversed and output
if they exist — the concat descriptor is not in this list. -/
def boomerangCleanupOnError (disk : List TmpFile) : List TmpFile :=
  [TmpFile.trimmed, TmpFile.reversed, TmpFile.output].foldl unlinkFile disk

/-- `_create_boomerang` (predict.py lines 95-196).  The three temp files
are created up front (lines 105-115).  The trim stage (lines 122-133) uses
`_encode_with_hardware` (returns a success bool) and falls back to
`_encode_with_software`, which raises `RuntimeError` on engine failure
(lines 349-354) — an exception type the `except subprocess.CalledProcessError`
handler at line 189 does not catch, so no cleanup runs on that path.  The
reverse and concat stages use `subprocess.run(check=True)`, whose
`CalledProcessError` is caught: the handler unlinks trimmed/reversed/output
and re-raises as `RuntimeError` (lines 189-196).  The success path unlinks
trimmed, reversed and the concat descriptor (lines 182-185). -/
def createBoomerang (gpu : Bool) (o : BoomOutcomes) : BoomerangRun :=
  let disk0 := [TmpFile.trimmed, TmpFile.reversed, TmpFile.output]
  let ev0 := [Event.tempFile, Event.tempFile, Event.tempFile, Event.probe]
  let trim : Except PyError Unit × List Event :=
    if gpu then
      if o.hwTrim then (Except.ok (), [Event.engine])
      else if o.swTrim then (Except.ok (), [Event.engine, Event.engine])
      else (Except.error (PyError.runtimeError
              ("Software encoding failed: " ++ o.stderr)),
            [Event.engine, Event.engine])
    else
      if o.swTrim then (Except.ok (), [Event.engine])
      else (Except.error (PyError.runtimeError
              ("Software encoding failed: " ++ o.stderr)),
            [Event.engine])
  match trim with
  | (Except.error e, ev) =>
    { result := Except.error e, disk := disk0, events := ev0 ++ ev }
  | (Except.ok _, ev) =>
    if o.reverseOk then
      let disk1 := disk0 ++ [TmpFile.concatDesc]
      let ev1 := ev0 ++ ev ++ [Event.engine, Event.tempFile]
      if o.concatOk then
        { result := Except.ok TmpFile.output
          disk := unlinkFile (unlinkFile (unlinkFile disk1 TmpFile.trimmed)
            TmpFile.reversed) TmpFile.concatDesc
          events := ev1 ++ [Event.engine] }
      else
        { result := Except.error (PyError.runtimeError
            ("Boomerang creation failed: " ++ o.stderr))
          disk := boomerangCleanupOnError disk1
          events := ev1 ++ [Event.engine] }
    else
      { result := Except.error (PyError.runtimeError
          ("Boomerang creation failed: " ++ o.stderr))
        disk := boomerangCleanupOnError disk0
        events := ev0 ++ ev ++ [Event.engine] }

/-! ## The standalone reencoder (reencoder.py lines 17-168) -/

/-- The three ffmpeg commands `reencoder` builds, in source order: the
primary hardware command, the first fallback, and the second fallback —
the last of which sits in dead code (see `reencoderRun`) and never
executes. -/
inductive RCmd
  | primary
  | fallback1
  | fallback2
deriving DecidableEq, BEq

/-- Result of one `reencoder` run and the ffmpeg commands it executed. -/
structure ReencoderRun where
  result : Except PyError Unit
  cmds : List RCmd

/-- The `try` body of `reencoder` (reencoder.py lines 89-96): the primary
command runs only when the stripped ffprobe output equals "h264_cuvid";
otherwise a `ValueError` is raised and nothing has run. -/
def reencoderTryBody (probeOut : String) (primaryOk : Bool) :
    Except PyError Unit × List RCmd :=
  if pyStrip probeOut = "h264_cuvid" then
    if primaryOk then (Except.ok (), [RCmd.primary])
    else (Except.error (PyError.calledProcessError ""), [RCmd.primary])
  else
    (Except.error
      (PyError.valueError "Hardware accelerated decoding not supported."), [])

/-- `reencoder` (reencoder.py lines 89-168): any exception from the try
body reaches the bare `except Exception` handler, which runs the first
fallback — `subprocess.run(fallback_cmd, check=True)` at line 130, with no
output capture.  When that run exits non-zero, the inner handler at lines
131-135 formats `e.stderr.decode('utf-8')`; but `e.stderr` is `None`
(output was never captured), so line 135 raises `AttributeError` inside
the handler.  That exception propagates out of `reencoder` before the
second fallback (lines 136-163) is even built: those lines are dead code
on every path, and the engine is never invoked a third time. -/
def reencoderRun (probeOut : String) (primaryOk fb1Ok : Bool) :
    ReencoderRun :=
  match reencoderTryBody probeOut primaryOk with
  | (Except.ok _, cs) => ⟨Except.ok (), cs⟩
  | (Except.error _, cs) =>
    if fb1Ok then ⟨Except.ok (), cs ++ [RCmd.fallback1]⟩
    else
      ⟨Except.error (PyError.attributeError
          "NoneType object has no attribute decode"),
        cs ++ [RCmd.fallback1]⟩

/-! ## TaskDispatcher (predict.py lines 23-47) -/

/-- `predict` (predict.py lines 23-47): dispatch on the task name to one of
the three handlers; any other task name raises `ValueError` before any temp
file, probe or engine call happens. -/
def predict (task : String) (previewRun boomerangRun webRun : Traced Unit) :
    Traced Unit :=
  if task = "create_preview_video" then previewRun
  else if task = "boomerang" then boomerangRun
  else if task = "reencode_for_web" then webRun
  else ⟨Except.error (PyError.valueError ("Unknown task: " ++ task)), []⟩

/-! ## Helper lemmas for evaluating `pyInt` -/

/-- For a nonnegative argument, Python truncation agrees with the floor. -/
theorem pyInt_eq_floor (q : ℚ) (h : 0 ≤ q) : pyInt q = ⌊q⌋ := by
  simp [pyInt, h]

/-- Evaluate `pyInt` on a concrete nonnegative rational via floor bounds. -/
theorem pyInt_eval (q : ℚ) (z : ℤ) (h0 : 0 ≤ q) (h1 : (z : ℚ) ≤ q)
    (h2 : q < (z : ℚ) + 1) : pyInt q = z := by
  rw [pyInt_eq_floor q h0]
  exact Int.floor_eq_iff.mpr ⟨h1, by exact_mod_cast h2⟩

/-- Unfolding of `targetResolution` on the scaling branch. -/
theorem targetResolution_of_gt (width height : ℤ) (hh : 1440 < height) :
    targetResolution width height =
      (if pyInt ((width : ℚ) * ((1440 : ℚ) / (height : ℚ))) % 2 = 0
        then pyInt ((width : ℚ) * ((1440 : ℚ) / (height : ℚ)))
        else pyInt ((width : ℚ) * ((1440 : ℚ) / (height : ℚ))) - 1,
       1440,
       some ("scale=" ++
         toString (if pyInt ((width : ℚ) * ((1440 : ℚ) / (height : ℚ))) % 2 = 0
           then pyInt ((width : ℚ) * ((1440 : ℚ) / (height : ℚ)))
           else pyInt ((width : ℚ) * ((1440 : ℚ) / (height : ℚ))) - 1) ++
         ":1440")) := by
  unfold targetResolution
  rw [if_pos hh]

/-- Concrete evaluation of `targetResolution` at 203×2880. -/
theorem targetResolution_203_2880 :
    targetResolution 203 2880 = (100, 1440, some "scale=100:1440") := by
  have h101 : pyInt (((203 : ℤ) : ℚ) * ((1440 : ℚ) / ((2880 : ℤ) : ℚ))) = 101 :=
    pyInt_eval _ 101 (by norm_num) (by norm_num) (by norm_num)
  rw [targetResolution_of_gt 203 2880 (by norm_num), h101]
  norm_num
  rfl

end VideoUtils

namespace VideoUtils

/-- C3 counterexample: the claim says the keyframe interval for a probed
frame rate of 29.97 fps equals round(29.97 × 2) = 60 frames; the code's
`int(fps * 2)` truncates and yields 59. -/
theorem keyframe_29_97_counterexample :
    keyframeInterval (2997 / 100) = 59 ∧ (59 : ℤ) ≠ 60 := by
  constructor
  · show pyInt ((2997 : ℚ) / 100 * 2) = 59
    exact pyInt_eval _ 59 (by norm_num) (by norm_num) (by norm_num)
  · decide

/-- C3 (amended): the web keyframe interval equals the truncation (floor,
for the nonnegative frame rates at hand) of frameRateHz × 2, not its
rounding: 29.97 fps gives 59 frames, 24 fps gives 48 frames, and in general
the interval lies in (2f - 1, 2f]. -/
theorem keyframe_interval_truncation :
    keyframeInterval (2997 / 100) = 59 ∧ keyframeInterval 24 = 48 ∧
    ∀ fps : ℚ, 0 ≤ fps →
      ((keyframeInterval fps : ℚ) ≤ fps * 2 ∧
        fps * 2 - 1 < (keyframeInterval fps : ℚ)) := by
  refine ⟨?_, ?_, ?_⟩
  · show pyInt ((2997 : ℚ) / 100 * 2) = 59
    exact pyInt_eval _ 59 (by norm_num) (by norm_num) (by norm_num)
  · show pyInt ((24 : ℚ) * 2) = 48
    exact pyInt_eval _ 48 (by norm_num) (by norm_num) (by norm_num)
  · intro fps hfps
    have h2 : 0 ≤ fps * 2 := by positivity
    have hk : keyframeInterval fps = ⌊fps * 2⌋ := pyInt_eq_floor _ h2
    constructor
    · rw [hk]; exact Int.floor_le (fps * 2)
    · rw [hk]
      have := Int.lt_floor_add_one (fps * 2)
      linarith

/-- C3 witness for the amended theorem's quantified part, at fps = 24. -/
theorem keyframe_interval_truncation_witness :
    (keyframeInterval 24 : ℚ) ≤ 24 * 2 :=
  (keyframe_interval_truncation.2.2 24 (by norm_num)).1

/-- C4 counterexample: for input 203×2880 the exact scaled width is
203 × 1440 / 2880 = 101.5; the claim says the output width is
round(101.5) = 102 forced to the nearest even integer and within ±1 pixel,
but the code computes int(101.5) = 101 and then decrements to 100, which is
neither 102 nor within 1 pixel of 101.5. -/
theorem web_scale_width_counterexample :
    (targetResolution 203 2880).1 = 100 ∧
    ¬ ((203 : ℚ) * 1440 / 2880 - ((targetResolution 203 2880).1 : ℚ) ≤ 1) := by
  rw [targetResolution_203_2880]
  constructor
  · rfl
  · norm_num

/-- C4 (amended): when the probed height exceeds 1440 the output height is
1440 and the output width is floor(width × 1440 / height) decremented by one
when odd — hence even, at most the exact scaled width, and within 2 pixels
below it — and a scale filter is emitted; when height ≤ 1440 the resolution
is unchanged and no scale filter is emitted. -/
theorem web_scale_resolution_amended (width height : ℤ) :
    (1440 < height → 0 < width →
      (targetResolution width height).2.1 = 1440 ∧
      (targetResolution width height).1 % 2 = 0 ∧
      ((targetResolution width height).1 : ℚ) ≤ (width : ℚ) * 1440 / height ∧
      (width : ℚ) * 1440 / height - ((targetResolution width height).1 : ℚ) < 2) ∧
    (height ≤ 1440 → targetResolution width height = (width, height, none)) := by
  constructor
  · intro hh hw
    have hh0 : (0 : ℚ) < (height : ℚ) := by exact_mod_cast (by omega : (0 : ℤ) < height)
    have hw0 : (0 : ℚ) ≤ (width : ℚ) := by exact_mod_cast (by omega : (0 : ℤ) ≤ width)
    have hpos : 0 ≤ (width : ℚ) * ((1440 : ℚ) / (height : ℚ)) := by positivity
    have hfl : pyInt ((width : ℚ) * ((1440 : ℚ) / (height : ℚ))) =
        ⌊(width : ℚ) * ((1440 : ℚ) / (height : ℚ))⌋ := pyInt_eq_floor _ hpos
    have hE : (width : ℚ) * 1440 / (height : ℚ) =
        (width : ℚ) * ((1440 : ℚ) / (height : ℚ)) := mul_div_assoc _ _ _
    have hle : (⌊(width : ℚ) * ((1440 : ℚ) / (height : ℚ))⌋ : ℚ) ≤
        (width : ℚ) * ((1440 : ℚ) / (height : ℚ)) := Int.floor_le _
    have hlt : (width : ℚ) * ((1440 : ℚ) / (height : ℚ)) <
        (⌊(width : ℚ) * ((1440 : ℚ) / (height : ℚ))⌋ : ℚ) + 1 :=
      Int.lt_floor_add_one _
    rw [targetResolution_of_gt width height hh, hfl]
    by_cases hpar : ⌊(width : ℚ) * ((1440 : ℚ) / (height : ℚ))⌋ % 2 = 0
    · rw [if_pos hpar]
      refine ⟨rfl, hpar, ?_, ?_⟩
      · rw [hE]; exact hle
      · rw [hE]; linarith
    · rw [if_neg hpar]
      refine ⟨rfl, by omega, ?_, ?_⟩
      · rw [hE]; push_cast; linarith
      · rw [hE]; push_cast; linarith
  · intro hh
    unfold targetResolution
    rw [if_neg (by omega)]

/-- C4 witness for the amended theorem at the concrete input 203×2880
(scaling branch) and 1920×1080 (pass-through branch). -/
theorem web_scale_resolution_amended_witness :
    (targetResolution 203 2880).1 % 2 = 0 ∧
    targetResolution 1920 1080 = (1920, 1080, none) :=
  ⟨((web_scale_resolution_amended 203 2880).1 (by norm_num) (by norm_num)).2.1,
   (web_scale_resolution_amended 1920 1080).2 (by norm_num)⟩

/-- C6: the ladder-selected (target, max) token pair is the claimed step
function of the output height. -/
theorem bitrate_ladder_step (h : ℤ) :
    (1440 ≤ h →
      (mbToken (bitrateLadder h).1, mbToken (bitrateLadder h).2) = ("8M", "12M")) ∧
    (1080 ≤ h ∧ h < 1440 →
      (mbToken (bitrateLadder h).1, mbToken (bitrateLadder h).2) = ("5M", "8M")) ∧
    (720 ≤ h ∧ h < 1080 →
      (mbToken (bitrateLadder h).1, mbToken (bitrateLadder h).2) = ("3M", "5M")) ∧
    (h < 720 →
      (mbToken (bitrateLadder h).1, mbToken (bitrateLadder h).2) = ("2M", "3M")) := by
  refine ⟨?_, ?_, ?_, ?_⟩
  · intro h1
    have hb : bitrateLadder h = (8, 12) := by
      unfold bitrateLadder
      rw [if_pos h1]
    rw [hb]
    rfl
  · intro h1
    have hb : bitrateLadder h = (5, 8) := by
      unfold bitrateLadder
      rw [if_neg (by omega), if_pos (by omega)]
    rw [hb]
    rfl
  · intro h1
    have hb : bitrateLadder h = (3, 5) := by
      unfold bitrateLadder
      rw [if_neg (by omega), if_neg (by omega), if_pos (by omega)]
    rw [hb]
    rfl
  · intro h1
    have hb : bitrateLadder h = (2, 3) := by
      unfold bitrateLadder
      rw [if_neg (by omega), if_neg (by omega), if_neg (by omega)]
    rw [hb]
    rfl

/-- C6 witness at output height 1080. -/
theorem bitrate_ladder_step_witness :
    (mbToken (bitrateLadder 1080).1, mbToken (bitrateLadder 1080).2) = ("5M", "8M") :=
  (bitrate_ladder_step 1080).2.1 ⟨by norm_num, by norm_num⟩

/-- C5 counterexample: probed bitrate 3,625,000 bps with ladder (5M, 8M)
gives candidate max(2, 0.8 × 3.625) = 2.9 < 5, so the claim predicts target
floor(2.9) = 2 → "2M" and max floor(1.5 × 2) = 3 → "3M"; the code instead
computes int(2.9 × 1.5) = int(4.35) = 4 → "4M" from the untruncated
candidate. -/
theorem bitrate_max_token_counterexample :
    adjustBitrate 5 8 (some 3625000) = ("2M", "4M") ∧
    ("2M", "4M") ≠ (("2M" : String), ("3M" : String)) := by
  have hc : max (2 : ℚ) (((3625000 : ℤ) : ℚ) / 1000000 * (4 / 5)) = 29 / 10 := by
    rw [max_eq_right (by norm_num)]
    norm_num
  constructor
  · simp only [adjustBitrate]
    rw [if_neg (by norm_num : ¬ (3625000 : ℤ) = 0), hc,
      if_pos (by norm_num : (29 : ℚ) / 10 < ((5 : ℤ) : ℚ)),
      pyInt_eval ((29 : ℚ) / 10) 2 (by norm_num) (by norm_num) (by norm_num),
      pyInt_eval ((29 : ℚ) / 10 * (3 / 2)) 4 (by norm_num) (by norm_num) (by norm_num)]
    rfl
  · decide

/-- C5 (amended): when the candidate max(2, 0.8 × b Mbps) is below the
ladder target, the derived target token is floor(0.8 × b) megabits never
below 2, and the derived max token is floor(1.5 × the untruncated
candidate) megabits; otherwise the ladder tokens are used unchanged;
fractional megabits are truncated. -/
theorem bitrate_adjust_amended (b lt lm : ℤ) (hb : 0 < b) :
    (max 2 ((b : ℚ) / 1000000 * (4 / 5)) < (lt : ℚ) →
      adjustBitrate lt lm (some b) =
        (toString (max 2 ⌊(b : ℚ) / 1000000 * (4 / 5)⌋) ++ "M",
         toString ⌊max 2 ((b : ℚ) / 1000000 * (4 / 5)) * (3 / 2)⌋ ++ "M")) ∧
    (¬ max 2 ((b : ℚ) / 1000000 * (4 / 5)) < (lt : ℚ) →
      adjustBitrate lt lm (some b) = (mbToken lt, mbToken lm)) := by
  have hbne : ¬ b = 0 := by omega
  have hc0 : (0 : ℚ) ≤ max 2 ((b : ℚ) / 1000000 * (4 / 5)) :=
    le_trans (by norm_num) (le_max_left _ _)
  have hc1 : (0 : ℚ) ≤ max 2 ((b : ℚ) / 1000000 * (4 / 5)) * (3 / 2) := by
    positivity
  have h2f : ⌊(2 : ℚ)⌋ = 2 := by norm_num
  have hmaxfloor : ⌊max 2 ((b : ℚ) / 1000000 * (4 / 5))⌋ =
      max 2 ⌊(b : ℚ) / 1000000 * (4 / 5)⌋ := by
    rcases le_total (2 : ℚ) ((b : ℚ) / 1000000 * (4 / 5)) with h | h
    · rw [max_eq_right h,
        max_eq_right ((le_of_eq h2f.symm).trans (Int.floor_mono h))]
    · rw [max_eq_left h, h2f,
        max_eq_left ((Int.floor_mono h).trans (le_of_eq h2f))]
  constructor
  · intro hcond
    simp only [adjustBitrate]
    rw [if_neg hbne, if_pos hcond, pyInt_eq_floor _ hc0, pyInt_eq_floor _ hc1,
      hmaxfloor]
  · intro hcond
    simp only [adjustBitrate]
    rw [if_neg hbne, if_neg hcond]

/-- C5 witness for the amended theorem: the shrink branch at b = 3,000,000
bps (candidate 2.4 Mbps) against the (5M, 8M) ladder. -/
theorem bitrate_adjust_amended_witness :
    adjustBitrate 5 8 (some 3000000) =
      (toString (max 2 ⌊(3000000 : ℚ) / 1000000 * (4 / 5)⌋) ++ "M",
       toString ⌊max 2 (((3000000 : ℤ) : ℚ) / 1000000 * (4 / 5)) * (3 / 2)⌋ ++ "M") :=
  (bitrate_adjust_amended 3000000 5 8 (by norm_num)).1
    (by rw [max_eq_right (by norm_num)]; norm_num)

/-- C1 (code bug): the boomerang cleanup is broken on two paths.  When the
GPU is unavailable and the software trim encode fails, the raised
`RuntimeError` is not caught by the `except subprocess.CalledProcessError`
handler, so all three pre-created temp files stay on disk — violating the
claimed at-most-one-file exit invariant.  When the concat stage fails, the
cleanup list omits the concat descriptor, which stays on disk.  The
reverse-failure path does leave zero files, as the claim states. -/
theorem boomerang_cleanup_code_bug :
    (createBoomerang false ⟨false, false, true, true, "x"⟩).disk =
      [TmpFile.trimmed, TmpFile.reversed, TmpFile.output] ∧
    1 < (createBoomerang false ⟨false, false, true, true, "x"⟩).disk.length ∧
    (createBoomerang true ⟨true, true, true, false, "x"⟩).disk =
      [TmpFile.concatDesc] ∧
    (createBoomerang true ⟨true, true, false, true, "x"⟩).disk = [] := by
  refine ⟨by decide, by decide, by decide, by decide⟩

/-- C2 counterexample: in `reencoder`, the first fallback runs without
output capture (reencoder.py:130), so when it fails, formatting
`e.stderr.decode('utf-8')` at line 135 raises `AttributeError` on `None`.
At probe output "h264" with a failing first fallback, the surfaced final
error is that interpreter `AttributeError` — it carries no captured
diagnostic text, because none was ever captured — refuting the claim's
assertion that a software-plan failure "is surfaced as the final error
with the captured diagnostic text". -/
theorem reencoder_fallback_failure_crash_counterexample :
    (reencoderRun "h264" true false).result =
      Except.error (PyError.attributeError
        "NoneType object has no attribute decode") ∧
    (reencoderRun "h264" true false).cmds = [RCmd.fallback1] :=
  ⟨rfl, rfl⟩

/-- C2 (amended): every single-stage encode request invokes the engine at
most twice and a software-path failure is never retried.  In predict.py's
preview path: hardware first when the GPU is available, one software
fallback on its failure (returning the software artifact on success), only
the software plan when no GPU, and a software failure surfaced as the
final error carrying the captured diagnostics.  In `reencoder`: at most
two invocations and no second retry as well — but only because a
first-fallback failure raises `AttributeError` while formatting the
never-captured stderr, so the second-fallback code is unreachable and the
surfaced final error carries no diagnostic text. -/
theorem fallback_retry_policy_amended (gpu : Bool) (o : PreviewOutcomes)
    (s : String) (p f1 : Bool) :
    engineCount (createPreviewVideo gpu o) ≤ 2 ∧
    (gpu = true → o.hwOk = false → o.swOk = true →
      (createPreviewVideo gpu o).result = Except.ok () ∧
      engineCount (createPreviewVideo gpu o) = 2) ∧
    (gpu = false → engineCount (createPreviewVideo gpu o) = 1) ∧
    (o.swOk = false → (gpu = false ∨ o.hwOk = false) →
      (createPreviewVideo gpu o).result =
        Except.error (PyError.runtimeError
          ("Software preview encoding failed: " ++ o.stderr))) ∧
    (reencoderRun s p f1).cmds.length ≤ 2 ∧
    RCmd.fallback2 ∉ (reencoderRun s p f1).cmds ∧
    (¬ (pyStrip s = "h264_cuvid" ∧ p = true) → f1 = false →
      (reencoderRun s p f1).result =
        Except.error (PyError.attributeError
          "NoneType object has no attribute decode")) := by
  obtain ⟨hwOk, swOk, stderr⟩ := o
  refine ⟨?_, ?_, ?_, ?_, ?_, ?_, ?_⟩
  · cases gpu <;> cases hwOk <;> cases swOk <;> exact Nat.le_of_sub_eq_zero rfl
  · intro hg hh hs
    subst hg; subst hh; subst hs
    exact ⟨rfl, rfl⟩
  · intro hg
    subst hg
    cases swOk <;> rfl
  · intro hs hor
    subst hs
    rcases hor with hg | hh
    · subst hg; rfl
    · subst hh; cases gpu <;> rfl
  · by_cases hp : pyStrip s = "h264_cuvid"
    · cases p <;> cases f1 <;>
        norm_num [reencoderRun, reencoderTryBody, hp]
    · cases f1 <;>
        norm_num [reencoderRun, reencoderTryBody, hp]
  · by_cases hp : pyStrip s = "h264_cuvid"
    · cases p <;> cases f1 <;>
        simp [reencoderRun, reencoderTryBody, hp]
    · cases f1 <;>
        simp [reencoderRun, reencoderTryBody, hp]
  · intro hnp hf1
    subst hf1
    by_cases hp : pyStrip s = "h264_cuvid"
    · cases p
      · simp [reencoderRun, reencoderTryBody, hp]
      · exact absurd ⟨hp, rfl⟩ hnp
    · simp [reencoderRun, reencoderTryBody, hp]

/-- C2 witness for the amended theorem: GPU available, hardware attempt
fails, software attempt succeeds — the artifact is returned after exactly
two engine invocations. -/
theorem fallback_retry_policy_amended_witness :
    (createPreviewVideo true ⟨false, true, ""⟩).result = Except.ok () ∧
    engineCount (createPreviewVideo true ⟨false, true, ""⟩) = 2 :=
  (fallback_retry_policy_amended true ⟨false, true, ""⟩ "h264" true true).2.1
    rfl rfl rfl

/-- C7 (code bug): the first fallback command of `reencoder` — the path the
source comments label software encoding — contains the hardware encoder
identifier `h264_nvenc`, while predict.py's software plan builder is clean
of both hardware identifiers. -/
theorem software_fallback_contains_hw_encoder :
    "h264_nvenc" ∈ reencoderFallback1Cmd "in.mp4" "out.mp4" 0 (-1) "medium" ∧
    "h264_nvenc" ∉ encodeWithSoftwareCmd "in.mp4" "out.mp4" 0 (-1) "medium" "20M" ∧
    "h264_cuvid" ∉ encodeWithSoftwareCmd "in.mp4" "out.mp4" 0 (-1) "medium" "20M" := by
  refine ⟨by decide, by decide, by decide⟩

/-- C8: probing never fails the caller; each of the four sub-queries
independently substitutes only its own documented default on failure
(codec → "unknown", frame rate → 30, resolution → 1920×1080, bitrate →
absent) and each probed field depends only on its own sub-query; frame-rate
parsing accepts a rational "num/den" string and a plain decimal, and a zero
denominator yields the 30.0 default. -/
theorem probe_defaults_independent (r : ProbeRaw) :
    (r.codecOut = none → (probeAll r).codec = "unknown") ∧
    (r.fpsOut = none → (probeAll r).fps = 30) ∧
    (r.resOut = ResProbe.procError →
      (probeAll r).width = 1920 ∧ (probeAll r).height = 1080) ∧
    (r.bitrateOut = none → (probeAll r).bitrate = none) ∧
    (∀ r2 : ProbeRaw, r2.codecOut = r.codecOut →
      (probeAll r2).codec = (probeAll r).codec) ∧
    (∀ r2 : ProbeRaw, r2.fpsOut = r.fpsOut →
      (probeAll r2).fps = (probeAll r).fps) ∧
    (∀ r2 : ProbeRaw, r2.resOut = r.resOut →
      (probeAll r2).width = (probeAll r).width ∧
      (probeAll r2).height = (probeAll r).height) ∧
    (∀ r2 : ProbeRaw, r2.bitrateOut = r.bitrateOut →
      (probeAll r2).bitrate = (probeAll r).bitrate) ∧
    getFps (some "30000/1001") = 30000 / 1001 ∧
    getFps (some "29.97") = 2997 / 100 ∧
    getFps (some "30/0") = 30 ∧
    getFps (some "garbage") = 30 := by
  refine ⟨?_, ?_, ?_, ?_, ?_, ?_, ?_, ?_, ?_, ?_, ?_, ?_⟩
  · intro h; simp [probeAll, getCodec, h]
  · intro h; simp [probeAll, getFps, h]
  · intro h; simp [probeAll, getResolution, h]
  · intro h; simp [probeAll, getBitrate, h]
  · intro r2 h; simp [probeAll, h]
  · intro r2 h; simp [probeAll, h]
  · intro r2 h; simp [probeAll, h]
  · intro r2 h; simp [probeAll, h]
  · rfl
  · have h : getFps (some "29.97") =
        ((29 : ℕ) : ℚ) + ((97 : ℕ) : ℚ) / (10 : ℚ) ^ (2 : ℕ) := rfl
    rw [h]; norm_num
  · rfl
  · rfl

/-- C8 witness: all four sub-queries failing yields exactly the documented
defaults. -/
theorem probe_defaults_independent_witness :
    (probeAll ⟨none, none, ResProbe.procError, none⟩).codec = "unknown" ∧
    (probeAll ⟨none, none, ResProbe.procError, none⟩).fps = 30 ∧
    (probeAll ⟨none, none, ResProbe.procError, none⟩).width = 1920 :=
  ⟨(probe_defaults_independent ⟨none, none, ResProbe.procError, none⟩).1 rfl,
   (probe_defaults_independent ⟨none, none, ResProbe.procError, none⟩).2.1 rfl,
   ((probe_defaults_independent ⟨none, none, ResProbe.procError, none⟩).2.2.1 rfl).1⟩

/-- C9: for any task name outside the three known ones, `predict` raises
the unknown-task `ValueError` with an empty side-effect trace — zero temp
files, zero probe calls and zero engine calls — regardless of what the
task handlers would do. -/
theorem unknown_task_no_side_effects (task : String)
    (previewRun boomerangRun webRun : Traced Unit)
    (h1 : task ≠ "create_preview_video") (h2 : task ≠ "boomerang")
    (h3 : task ≠ "reencode_for_web") :
    (predict task previewRun boomerangRun webRun).events = [] ∧
    (predict task previewRun boomerangRun webRun).result =
      Except.error (PyError.valueError ("Unknown task: " ++ task)) := by
  unfold predict
  rw [if_neg h1, if_neg h2, if_neg h3]
  exact ⟨rfl, rfl⟩

/-- C9 witness at the task name "unknown_task", with handlers that would
each record side effects if invoked. -/
theorem unknown_task_no_side_effects_witness :
    (predict "unknown_task" ⟨Except.ok (), [Event.tempFile]⟩
      ⟨Except.ok (), [Event.engine]⟩ ⟨Except.ok (), [Event.probe]⟩).events = [] :=
  (unknown_task_no_side_effects "unknown_task" _ _ _ (by decide) (by decide)
    (by decide)).1

/-- C10: the primary hardware command of `reencoder` executes exactly when
the stripped ffprobe output equals "h264_cuvid"; for every other probe
result a `ValueError` is raised by the try body and the first fallback runs
instead, the primary command never having run. -/
theorem reencoder_primary_gating (probeOut : String) (p f1 : Bool) :
    (RCmd.primary ∈ (reencoderRun probeOut p f1).cmds ↔
      pyStrip probeOut = "h264_cuvid") ∧
    (pyStrip probeOut ≠ "h264_cuvid" →
      (reencoderTryBody probeOut p).1 =
        Except.error
          (PyError.valueError "Hardware accelerated decoding not supported.") ∧
      RCmd.fallback1 ∈ (reencoderRun probeOut p f1).cmds) := by
  by_cases hp : pyStrip probeOut = "h264_cuvid"
  · refine ⟨⟨fun _ => hp, fun _ => ?_⟩, fun h => absurd hp h⟩
    cases p <;> cases f1 <;>
      simp [reencoderRun, reencoderTryBody, hp]
  · refine ⟨⟨fun hmem => ?_, fun h => absurd h hp⟩, fun _ => ⟨?_, ?_⟩⟩
    · cases f1 <;>
        simp [reencoderRun, reencoderTryBody, hp] at hmem
    · simp only [reencoderTryBody]
      rw [if_neg hp]
    · cases f1 <;>
        simp [reencoderRun, reencoderTryBody, hp]

/-- C10 witness at the standard ffprobe codec name "h264": the try body
raises the ValueError and the first fallback runs. -/
theorem reencoder_primary_gating_witness :
    (reencoderTryBody "h264" true).1 =
      Except.error
        (PyError.valueError "Hardware accelerated decoding not supported.") ∧
    RCmd.fallback1 ∈ (reencoderRun "h264" true true).cmds :=
  (reencoder_primary_gating "h264" true true).2 (by decide)

end VideoUtils
